import Mathlib

/-!
Shallow embedding of `src/bus-mcp/server.py` (SeattleBusMCP): the OneBusAway
API-client wrapper, the geocoding wrapper, the toy breadth-first path finder
with its backtracking reconstruction, and the great-circle distance used for
the stop-distance annotation.  HTTP effects are modelled by passing the
upstream response to the function explicitly; Python dict mutation is modelled
by explicit state passing (the function returns the dict state the caller's
dict is left in).
-/

/-- JSON values as produced by `response.json()`.  Numbers are modelled as
integers; no claim depends on fractional values. -/
inductive Json where
  | null
  | bool (b : Bool)
  | num (n : Int)
  | str (s : String)
  | arr (items : List Json)
  | obj (fields : List (String × Json))

/-- Python `dict` lookup (`d[k]`, `k in d`) on an insertion-ordered
association list with unique keys: first matching key wins. -/
def dictLookup {α : Type} : List (String × α) → String → Option α
  | [], _ => none
  | (k, v) :: rest, key => if k = key then some v else dictLookup rest key

/-- Python `dict` assignment `d[k] = v`: overwrite in place (keeping the
key's position) when the key is present, otherwise append the new binding at
the end (dict insertion order). -/
def dictSet {α : Type} : List (String × α) → String → α → List (String × α)
  | [], key, v => [(key, v)]
  | (k, w) :: rest, key, v =>
    if k = key then (k, v) :: rest else (k, w) :: dictSet rest key v

/-- An upstream HTTP response as seen by `requests.get`: status code, raw
text body, and the result of `response.json()` (`none` when the body is not
valid JSON, in which case `.json()` raises a decode error). -/
structure Response where
  status : Nat
  text : String
  json : Option Json

/-- Errors raised by the API-client wrapper: `requests.HTTPError` carrying
the status code and response body (server.py line 48), or a JSON decode
failure from `response.json()`. -/
inductive ApiError where
  | httpError (status : Nat) (body : String)
  | jsonDecodeError
deriving DecidableEq

/-- `make_one_bus_away_api_call` (server.py lines 32-49).  The function
mutates the caller-supplied `params` dict in place with
`params["key"] = one_bus_away_api_key`, issues one GET (the response is
passed in here), raises `HTTPError` with the status code and body unless the
status is exactly 200, and otherwise returns `response.json()`.  The returned
pair is (the caller's dict after the call, the call's outcome). -/
def make_one_bus_away_api_call (api_key : String) (endpoint : String)
    (params : List (String × Json)) (resp : Response) :
    List (String × Json) × Except ApiError Json :=
  let params2 := dictSet params "key" (Json.str api_key)
  (params2,
    if resp.status ≠ 200 then
      Except.error (ApiError.httpError resp.status resp.text)
    else
      match resp.json with
      | some j => Except.ok j
      | none => Except.error ApiError.jsonDecodeError)

/-- `get_current_time` (server.py lines 230-236): issues its GET and calls
`response.json()` directly, with no status-code check of any kind. -/
def get_current_time (resp : Response) : Except ApiError Json :=
  match resp.json with
  | some j => Except.ok j
  | none => Except.error ApiError.jsonDecodeError

/-- Errors raised by `geocode_address`: `requests.HTTPError` carrying only
the status code (server.py line 103), a JSON decode failure, or a lookup
failure on a malformed result object. -/
inductive GeoError where
  | httpError (status : Nat)
  | jsonDecodeError
  | keyError
deriving DecidableEq

/-- The geocoder's upstream response: status code and the parsed JSON body,
which the Nominatim API contract makes a JSON array of result objects
(`none` when the body is not valid JSON). -/
structure GeoResponse where
  status : Nat
  results : Option (List Json)

/-- Field access `result[k]` on a JSON object; `none` models a raised
`KeyError`. -/
def jsonField : Json → String → Option Json
  | Json.obj fields, k => dictLookup fields k
  | _, _ => none

/-- `geocode_address` (server.py lines 68-103): on status 200, if the parsed
result list is non-empty, build a dict from the first result's `lat`, `lon`
and `display_name` fields (the Python code additionally coerces `lat`/`lon`
through `float(...)`, a numeric re-reading of the same value, not modelled);
on an empty result list return the `{"error": "Address not found"}` marker;
on any non-200 status raise `HTTPError` carrying the status code. -/
def geocode_address (resp : GeoResponse) : Except GeoError Json :=
  if resp.status = 200 then
    match resp.results with
    | none => Except.error GeoError.jsonDecodeError
    | some [] => Except.ok (Json.obj [("error", Json.str "Address not found")])
    | some (result :: _) =>
      match jsonField result "lat", jsonField result "lon",
          jsonField result "display_name" with
      | some la, some lo, some dn =>
        Except.ok (Json.obj
          [("lat", la), ("lon", lo), ("formatted_address", dn)])
      | _, _, _ => Except.error GeoError.keyError
  else Except.error (GeoError.httpError resp.status)

/-- The query parameters built by `get_next_stop` (server.py lines 240-244). -/
def get_next_stop_params (milliseconds_since_epoch minutes_ahead
    minutes_before : Int) : List (String × Json) :=
  [("minutesBefore", Json.num minutes_before),
   ("minutesAfter", Json.num minutes_ahead),
   ("time", Json.num milliseconds_since_epoch)]

/-- Python evaluates a default argument once, at function-definition (module
load) time, so the default `milliseconds_since_epoch = int(time.time()*1000)`
of `get_next_stop` (server.py line 239) is the clock value read when the
module loaded, not at call time.  An invocation is modelled by the load-time
clock value, the clock value at the moment of the call, and the optionally
supplied explicit argument; the call-time clock is never consulted when the
argument is omitted. -/
def get_next_stop_time_argument (module_load_ms : Int) (call_time_ms : Int)
    (explicit_ms : Option Int) : Int :=
  match explicit_ms with
  | some ms => ms
  | none => module_load_ms

/-- The params dict an invocation of `get_next_stop` sends: the `time` entry
is the (defaulted) `milliseconds_since_epoch` argument. -/
def get_next_stop_sent_params (module_load_ms call_time_ms : Int)
    (explicit_ms : Option Int) (minutes_ahead minutes_before : Int) :
    List (String × Json) :=
  get_next_stop_params
    (get_next_stop_time_argument module_load_ms call_time_ms explicit_ms)
    minutes_ahead minutes_before

/-- `sample_get_next_stops` (server.py lines 256-270): sequential `if`s on
the stop id.  An unknown stop leaves `value = ""`, and the caller's `for`
loop over that empty string iterates zero times, i.e. no successors. -/
def sample_get_next_stops (stop : String) : List String :=
  if stop = "S" then ["B", "A", "D"]
  else if stop = "A" then ["C", "F", "B"]
  else if stop = "B" then ["E"]
  else if stop = "C" then ["E"]
  else if stop = "D" then ["E"]
  else if stop = "F" then ["D"]
  else []

/-- The state of `find_path`'s expansion loop (server.py lines 273-275):
the FIFO work list `next_to_consider`, the reachability map `stops_to_here`
(a dict from a stop to the set of stops that could get you to it, the set
modelled as an insertion-ordered duplicate-free list), and the `visited`
set (modelled as the insertion-ordered list of stops processed so far). -/
structure SearchState where
  queue : List String
  stops_to_here : List (String × List String)
  visited : List String

/-- The loop state as `find_path` enters its `while` loop: the queue seeded
with the start stop, an empty reachability map and an empty visited set. -/
def initState (start_stop : String) : SearchState :=
  { queue := [start_stop], stops_to_here := [], visited := [] }

/-- Server.py lines 283-285 for one successor: create the key with an empty
predecessor set when absent, then add the current stop to it (set semantics:
a duplicate predecessor collapses, and an existing key keeps its position). -/
def addPred (m : List (String × List String)) (next_stop stop : String) :
    List (String × List String) :=
  match dictLookup m next_stop with
  | none => m ++ [(next_stop, [stop])]
  | some ps => dictSet m next_stop (if stop ∈ ps then ps else ps ++ [stop])

/-- One iteration of the `while next_to_consider` loop of `find_path`
(server.py lines 276-287), parametric in the successor function `g`
(hard-wired to `sample_get_next_stops` in the source): pop the front stop;
if already visited, skip; otherwise record the current stop as a predecessor
of each successor, enqueue every successor unconditionally, and mark the
current stop visited.  On an empty queue the state is returned unchanged
(the loop has exited). -/
def expandStep (g : String → List String) (st : SearchState) : SearchState :=
  match st.queue with
  | [] => st
  | stop :: rest =>
    if stop ∈ st.visited then { st with queue := rest }
    else
      let next_stops := g stop
      { queue := rest ++ next_stops
        stops_to_here :=
          next_stops.foldl (fun m next_stop => addPred m next_stop stop)
            st.stops_to_here
        visited := st.visited ++ [stop] }

/-- The expansion state after `n` loop iterations. -/
def stepN (g : String → List String) : Nat → SearchState → SearchState
  | 0, st => st
  | n + 1, st => stepN g n (expandStep g st)

/-- The full expansion loop with explicit fuel: returns `some` final state
exactly when the queue empties within `fuel` iterations (the Python loop has
no fuel; `none` never arises in the runs proved below). -/
def expandLoop (g : String → List String) :
    Nat → SearchState → Option SearchState
  | 0, st => if st.queue = [] then some st else none
  | fuel + 1, st =>
    if st.queue = [] then some st
    else expandLoop g fuel (expandStep g st)

/-- Failure modes of the reconstruction: a raised `KeyError` from
`stops_to_here[curr_stop]` (server.py line 297) carrying the missing stop,
or exhaustion of the modelling fuel (the Python recursion is bounded only by
the interpreter stack). -/
inductive PathErr where
  | keyError (stop : String)
  | outOfFuel
deriving DecidableEq

/-- `backtrack` (server.py lines 293-303).  The base case returns
`[curr_stop]`, a one-element list whose element is the stop STRING, and
`full_path = route + curr_stop` is Python string concatenation; a
reconstructed path is therefore a string of stop ids, in order.  Results of
the recursive calls are concatenated in iteration order of the predecessor
set, matching the nested `for` loops; a raised exception propagates
(`Except` short-circuits). -/
def backtrack : Nat → List (String × List String) → String → String →
    Except PathErr (List String)
  | 0, _, _, _ => Except.error PathErr.outOfFuel
  | fuel + 1, stops_to_here, start_stop, curr_stop =>
    if curr_stop = start_stop then Except.ok [curr_stop]
    else
      match dictLookup stops_to_here curr_stop with
      | none => Except.error (PathErr.keyError curr_stop)
      | some prev_stops => do
        let routes_lists ← prev_stops.mapM (fun prev_stop =>
          backtrack fuel stops_to_here start_stop prev_stop)
        pure (routes_lists.map (fun routes =>
          routes.map (fun route => route ++ curr_stop))).flatten

/-- `find_path` (server.py lines 272-291): run the breadth-first expansion
to exhaustion, then reconstruct the paths with `backtrack` on the resulting
reachability map.  The Python function prints the reconstructed paths and
falls off the end; the value modelled here is the `paths` it computes at
line 289.  The successor function is hard-wired to `sample_get_next_stops`
as in the source. -/
def find_path (expand_fuel backtrack_fuel : Nat)
    (start_stop end_stop : String) : Except PathErr (List String) :=
  match expandLoop sample_get_next_stops expand_fuel (initState start_stop) with
  | none => Except.error PathErr.outOfFuel
  | some st => backtrack backtrack_fuel st.stops_to_here start_stop end_stop

/-- The `Location` dataclass (server.py lines 24-28), over real numbers. -/
structure Location where
  latitude : ℝ
  longitude : ℝ

/-- Modelled from the spec: "Distance annotation applies a standard
great-circle distance formula between a reference location and each
candidate stop location."  The source delegates the distance computation of
`find_stops_near_location` (server.py line 137) to the external
`geopy.distance.geodesic` library, whose code is not part of this
repository, so the distance function is modelled from the spec's words as
the standard haversine great-circle formula (mean Earth radius in meters)
over real numbers. -/
noncomputable def great_circle_distance_meters (a b : Location) : ℝ :=
  2 * 6371000 * Real.arcsin (Real.sqrt
    (Real.sin ((b.latitude - a.latitude) * (Real.pi / 180) / 2) ^ 2
      + Real.cos (a.latitude * (Real.pi / 180))
          * Real.cos (b.latitude * (Real.pi / 180))
          * Real.sin ((b.longitude - a.longitude) * (Real.pi / 180) / 2) ^ 2))

/-- Every stop id that can ever sit in the expansion queue for the finite
successor graph `gl` started from `start_stop`: the start stop, the graph's
keys and every listed successor. -/
def graphStops (gl : List (String × List String)) (start_stop : String) :
    List String :=
  start_stop :: (gl.map Prod.fst ++ (gl.map Prod.snd).flatten)

/-- The largest successor-list length occurring in the adjacency list. -/
def maxOutDegree (gl : List (String × List String)) : Nat :=
  (gl.map (fun p => p.2.length)).foldr max 0

/-- How many of the listed stops are not yet visited. -/
def unvisitedCount (stops : List String) (visited : List String) : Nat :=
  (stops.filter (fun s => decide (s ∉ visited))).length

/-- Termination measure for the expansion loop: unvisited stops weighted by
the largest possible enqueue burst, plus the queue length. -/
def searchMeasure (gl : List (String × List String)) (start_stop : String)
    (st : SearchState) : Nat :=
  unvisitedCount (graphStops gl start_stop) st.visited * (maxOutDegree gl + 1)
    + st.queue.length

/-- The successor function given by a finite adjacency list: the listed
successors for a key, no successors otherwise. -/
def succsOf (gl : List (String × List String)) (s : String) : List String :=
  (dictLookup gl s).getD []

/-! Helper lemmas about the Python-dict model, shared across the claims. -/

theorem dictLookup_dictSet_self {α : Type} (m : List (String × α))
    (key : String) (v : α) : dictLookup (dictSet m key v) key = some v := by
  induction m with
  | nil => simp [dictSet, dictLookup]
  | cons hd tl ih =>
    obtain ⟨k, w⟩ := hd
    by_cases h : k = key
    · simp [dictSet, dictLookup, h]
    · simp [dictSet, dictLookup, h, ih]

theorem dictLookup_dictSet_ne {α : Type} (m : List (String × α))
    (key : String) (v : α) (k2 : String) (h : k2 ≠ key) :
    dictLookup (dictSet m key v) k2 = dictLookup m k2 := by
  have hne : ¬ key = k2 := fun hh => h hh.symm
  induction m with
  | nil => simp [dictSet, dictLookup, hne]
  | cons hd tl ih =>
    obtain ⟨k, w⟩ := hd
    by_cases hk : k = key
    · subst hk
      simp [dictSet, dictLookup, hne]
    · simp only [dictSet, if_neg hk, dictLookup]
      by_cases hk2 : k = k2
      · simp [hk2]
      · simp [hk2, ih]

theorem dictLookup_append {α : Type} (m1 m2 : List (String × α)) (key : String) :
    dictLookup (m1 ++ m2) key =
      match dictLookup m1 key with
      | some v => some v
      | none => dictLookup m2 key := by
  induction m1 with
  | nil => simp [dictLookup]
  | cons hd tl ih =>
    obtain ⟨k, w⟩ := hd
    by_cases h : k = key <;> simp [dictLookup, h, ih]

/-- C1: on the fixed toy successor table, `find_path` from "S" to "E"
computes exactly the simple paths S-B-E, S-A-B-E, S-A-C-E, S-D-E, S-A-F-D-E
(each reconstructed path being the string of its stop ids, in order), as an
order-independent set: the computed list is a permutation of the five
specified paths. -/
theorem find_path_toy_graph_paths :
    find_path 20 10 "S" "E"
        = Except.ok ["SBE", "SABE", "SDE", "SAFDE", "SACE"]
      ∧ List.Perm ["SBE", "SABE", "SDE", "SAFDE", "SACE"]
          ["SBE", "SABE", "SACE", "SDE", "SAFDE"] :=
  ⟨rfl, by decide⟩

/-- C2: the claim says an unreachable end stop yields an explicit no-path
report, but the code raises a key-lookup failure: from start "E" (which has
no successors) to end "S", the expansion leaves `stops_to_here` empty and
`backtrack` raises `KeyError("S")` at `stops_to_here[curr_stop]`
(server.py line 297). -/
theorem find_path_unreachable_raises_key_error :
    find_path 20 10 "E" "S" = Except.error (PathErr.keyError "S") := rfl

/-- C3 counterexample: `get_current_time` performs no status check at all: a
500 response whose body parses as JSON is returned as a success and no
remote-API error carrying the status is raised, refuting the claim that
every outbound HTTP request made by the server raises a typed remote-API
error on a 500 response. -/
theorem get_current_time_500_no_error :
    get_current_time
        { status := 500, text := "Internal Server Error",
          json := some (Json.str "boom") }
        = Except.ok (Json.str "boom")
      ∧ get_current_time
          { status := 500, text := "Internal Server Error",
            json := some (Json.str "boom") }
          ≠ Except.error (ApiError.httpError 500 "Internal Server Error") := by
  refine ⟨rfl, ?_⟩
  intro h
  exact Except.noConfusion h

/-- C3 (amended): `make_one_bus_away_api_call` raises an `HTTPError`
carrying the original status code and response body iff the status differs
from 200 — so 404 and 500 raise, a 200 never does, but a non-200 2xx status
such as 201 also raises; `geocode_address` raises an `HTTPError` carrying
only the status code iff the status differs from 200; `get_current_time`
checks no status at all and returns the parse of the body for every status.
Each wrapper issues its single request exactly once; no retry exists. -/
theorem http_error_exactly_on_non_200 :
    ∀ (api_key ep : String) (ps : List (String × Json)) (resp : Response),
      (resp.status ≠ 200 →
        (make_one_bus_away_api_call api_key ep ps resp).2
          = Except.error (ApiError.httpError resp.status resp.text))
      ∧ (resp.status = 200 → ∀ s b,
          (make_one_bus_away_api_call api_key ep ps resp).2
            ≠ Except.error (ApiError.httpError s b))
      ∧ (∀ g : GeoResponse, g.status ≠ 200 →
          geocode_address g = Except.error (GeoError.httpError g.status))
      ∧ (∀ g : GeoResponse, g.status = 200 → ∀ s,
          geocode_address g ≠ Except.error (GeoError.httpError s))
      ∧ (∀ j, resp.json = some j → get_current_time resp = Except.ok j) := by
  intro api_key ep ps resp
  refine ⟨fun h => by simp [make_one_bus_away_api_call, h], ?_, ?_, ?_, ?_⟩
  · intro h s b
    simp only [make_one_bus_away_api_call, h]
    cases hj : resp.json with
    | none => simp
    | some j => simp
  · intro g hg
    simp [geocode_address, hg]
  · intro g hg s hcontra
    unfold geocode_address at hcontra
    rw [if_pos hg] at hcontra
    split at hcontra
    · simp at hcontra
    · simp at hcontra
    · split at hcontra <;> simp at hcontra
  · intro j hj
    simp [get_current_time, hj]

/-- Witness for C3 (amended), at concrete responses: a 404 from the API
client raises the error with status and body, a 200 at the geocoder raises
no HTTP error, and a 500 at `get_current_time` is parsed as a success. -/
theorem http_error_exactly_on_non_200_witness :
    (make_one_bus_away_api_call "KEY" "stop/1.json" []
        { status := 404, text := "not found", json := none }).2
      = Except.error (ApiError.httpError 404 "not found")
    ∧ geocode_address { status := 200, results := some [] }
      ≠ Except.error (GeoError.httpError 200)
    ∧ get_current_time
        { status := 500, text := "oops", json := some Json.null }
      = Except.ok Json.null :=
  ⟨(http_error_exactly_on_non_200 "KEY" "stop/1.json" []
      { status := 404, text := "not found", json := none }).1 (by decide),
   (http_error_exactly_on_non_200 "KEY" "x" []
      { status := 404, text := "", json := none }).2.2.2.1
     { status := 200, results := some [] } rfl 200,
   (http_error_exactly_on_non_200 "KEY" "x" []
      { status := 500, text := "oops", json := some Json.null }).2.2.2.2
     Json.null rfl⟩

/-- C4: on a 200 response whose body parses as the JSON value `j`, the API
client returns exactly `j` (round-trip, no validation or reshaping), for
every endpoint and params mapping. -/
theorem api_client_round_trip :
    ∀ (api_key ep : String) (ps : List (String × Json)) (resp : Response)
      (j : Json), resp.status = 200 → resp.json = some j →
      (make_one_bus_away_api_call api_key ep ps resp).2 = Except.ok j := by
  intro api_key ep ps resp j hs hj
  simp [make_one_bus_away_api_call, hs, hj]

/-- Witness for C4 at a concrete 200 response. -/
theorem api_client_round_trip_witness :
    (make_one_bus_away_api_call "KEY" "route/7.json" []
        { status := 200, text := "7", json := some (Json.num 7) }).2
      = Except.ok (Json.num 7) :=
  api_client_round_trip "KEY" "route/7.json" []
    { status := 200, text := "7", json := some (Json.num 7) }
    (Json.num 7) rfl rfl

/-- C7: a successful (status 200) geocoder response with an empty result
list makes `geocode_address` return the `{"error": "Address not found"}`
marker as an ordinary value; no error is raised. -/
theorem geocode_empty_results_not_found :
    ∀ resp : GeoResponse, resp.status = 200 → resp.results = some [] →
      geocode_address resp
        = Except.ok (Json.obj [("error", Json.str "Address not found")]) := by
  intro resp hs hr
  simp [geocode_address, hs, hr]

/-- Witness for C7 at a concrete empty 200 response. -/
theorem geocode_empty_results_not_found_witness :
    geocode_address { status := 200, results := some [] }
      = Except.ok (Json.obj [("error", Json.str "Address not found")]) :=
  geocode_empty_results_not_found { status := 200, results := some [] } rfl rfl

/-- C9: the API client updates the caller's params dict in place (modelled
as the first component of the returned pair): afterwards "key" maps to the
configured API key — overwriting any caller-supplied "key" — and every
other key maps to exactly its pre-call value. -/
theorem api_client_params_frame :
    ∀ (api_key ep : String) (ps : List (String × Json)) (resp : Response),
      dictLookup (make_one_bus_away_api_call api_key ep ps resp).1 "key"
          = some (Json.str api_key)
      ∧ ∀ k, k ≠ "key" →
          dictLookup (make_one_bus_away_api_call api_key ep ps resp).1 k
            = dictLookup ps k := by
  intro api_key ep ps resp
  constructor
  · exact dictLookup_dictSet_self ps "key" (Json.str api_key)
  · intro k hk
    exact dictLookup_dictSet_ne ps "key" (Json.str api_key) k hk

/-- Witness for C9: a caller dict with a "lat" entry and a stale "key" entry
ends up with the configured key and an untouched "lat" entry. -/
theorem api_client_params_frame_witness :
    dictLookup (make_one_bus_away_api_call "REALKEY" "stops-for-location.json"
        [("lat", Json.num 47), ("key", Json.str "stale")]
        { status := 200, text := "", json := some Json.null }).1 "key"
      = some (Json.str "REALKEY")
    ∧ dictLookup (make_one_bus_away_api_call "REALKEY"
        "stops-for-location.json"
        [("lat", Json.num 47), ("key", Json.str "stale")]
        { status := 200, text := "", json := some Json.null }).1 "lat"
      = some (Json.num 47) :=
  ⟨(api_client_params_frame "REALKEY" "stops-for-location.json"
      [("lat", Json.num 47), ("key", Json.str "stale")]
      { status := 200, text := "", json := some Json.null }).1,
   ((api_client_params_frame "REALKEY" "stops-for-location.json"
      [("lat", Json.num 47), ("key", Json.str "stale")]
      { status := 200, text := "", json := some Json.null }).2 "lat"
      (by decide)).trans rfl⟩

/-- C10: the default timestamp of `get_next_stop` is frozen at module load:
any two invocations omitting `milliseconds_since_epoch`, whatever the clock
reads at the moments of the two calls, send identical params whose "time"
entry is the module-load clock value, not the call-time clock value. -/
theorem get_next_stop_default_time_frozen :
    ∀ (module_load_ms t1 t2 minutes_ahead minutes_before : Int),
      get_next_stop_sent_params module_load_ms t1 none
          minutes_ahead minutes_before
        = get_next_stop_sent_params module_load_ms t2 none
            minutes_ahead minutes_before
      ∧ dictLookup (get_next_stop_sent_params module_load_ms t1 none
            minutes_ahead minutes_before) "time"
          = some (Json.num module_load_ms) :=
  fun _ _ _ _ _ => ⟨rfl, rfl⟩

/-- C8: the great-circle distance is zero between identical coordinates and
is symmetric in its two arguments. -/
theorem great_circle_distance_zero_and_symm :
    ∀ a b : Location,
      great_circle_distance_meters a a = 0
      ∧ great_circle_distance_meters a b = great_circle_distance_meters b a := by
  intro a b
  constructor
  · simp [great_circle_distance_meters]
  · unfold great_circle_distance_meters
    have hsin : ∀ x y : ℝ,
        Real.sin ((x - y) * (Real.pi / 180) / 2) ^ 2
          = Real.sin ((y - x) * (Real.pi / 180) / 2) ^ 2 := by
      intro x y
      have hx : (x - y) * (Real.pi / 180) / 2
          = -((y - x) * (Real.pi / 180) / 2) := by ring
      rw [hx, Real.sin_neg, neg_sq]
    rw [hsin b.latitude a.latitude, hsin b.longitude a.longitude,
      mul_comm (Real.cos (a.latitude * (Real.pi / 180)))
        (Real.cos (b.latitude * (Real.pi / 180)))]

/-! Lemmas for the reachability-map invariant (C5). -/

theorem addPred_nonempty (m : List (String × List String))
    (next_stop stop : String)
    (hm : ∀ k ps, dictLookup m k = some ps → ps ≠ []) :
    ∀ k ps, dictLookup (addPred m next_stop stop) k = some ps → ps ≠ [] := by
  intro k ps hps
  unfold addPred at hps
  cases hnext : dictLookup m next_stop with
  | none =>
    rw [hnext, dictLookup_append] at hps
    cases hk : dictLookup m k with
    | some v =>
      rw [hk] at hps
      simp only [Option.some.injEq] at hps
      exact hps ▸ hm k v hk
    | none =>
      rw [hk] at hps
      simp only [] at hps
      by_cases hnk : next_stop = k
      · simp [dictLookup, hnk] at hps
        simp [← hps]
      · simp [dictLookup, hnk] at hps
  | some ps0 =>
    rw [hnext] at hps
    by_cases hnk : next_stop = k
    · subst hnk
      rw [dictLookup_dictSet_self] at hps
      by_cases hmem : stop ∈ ps0
      · simp [hmem] at hps
        exact hps ▸ hm next_stop ps0 hnext
      · simp [hmem] at hps
        simp [← hps]
    · rw [dictLookup_dictSet_ne _ _ _ _ (fun hh => hnk hh.symm)] at hps
      exact hm k ps hps

theorem foldl_addPred_nonempty (l : List String) (stop : String) :
    ∀ m : List (String × List String),
      (∀ k ps, dictLookup m k = some ps → ps ≠ []) →
      ∀ k ps,
        dictLookup (l.foldl (fun m next_stop => addPred m next_stop stop) m) k
          = some ps → ps ≠ [] := by
  induction l with
  | nil => intro m hm; exact hm
  | cons hd tl ih =>
    intro m hm
    exact ih (addPred m hd stop) (addPred_nonempty m hd stop hm)

theorem expandStep_nonempty (g : String → List String) (st : SearchState)
    (hm : ∀ k ps, dictLookup st.stops_to_here k = some ps → ps ≠ []) :
    ∀ k ps, dictLookup (expandStep g st).stops_to_here k = some ps → ps ≠ [] := by
  unfold expandStep
  cases hq : st.queue with
  | nil => exact hm
  | cons stop rest =>
    by_cases hv : stop ∈ st.visited
    · simpa [hv] using hm
    · simpa [hv] using
        foldl_addPred_nonempty (g stop) stop st.stops_to_here hm

theorem stepN_nonempty (g : String → List String) (n : Nat) :
    ∀ st : SearchState,
      (∀ k ps, dictLookup st.stops_to_here k = some ps → ps ≠ []) →
      ∀ k ps, dictLookup (stepN g n st).stops_to_here k = some ps → ps ≠ [] := by
  induction n with
  | zero => intro st hm; exact hm
  | succ n ih =>
    intro st hm
    exact ih (expandStep g st) (expandStep_nonempty g st hm)

/-- C5: at every step of the breadth-first expansion (for any successor
function and start stop), every stop present as a key of the reachability
map `stops_to_here` has a non-empty recorded predecessor set: a stop becomes
a key only when reached from at least one predecessor. -/
theorem reachability_map_keys_have_predecessors :
    ∀ (g : String → List String) (start_stop : String) (n : Nat)
      (k : String) (ps : List String),
      dictLookup (stepN g n (initState start_stop)).stops_to_here k = some ps →
      ps ≠ [] := by
  intro g start_stop n k ps
  exact stepN_nonempty g n (initState start_stop) (by intro k ps h; cases h) k ps

/-- Witness for C5: after one expansion step from "S" on the toy table, "B"
is a key and its recorded predecessor set ["S"] is non-empty. -/
theorem reachability_map_keys_have_predecessors_witness :
    (["S"] : List String) ≠ [] :=
  reachability_map_keys_have_predecessors sample_get_next_stops "S" 1 "B"
    ["S"] rfl

/-! Lemmas for termination of the expansion loop (C6). -/

theorem succsOf_length_le (gl : List (String × List String)) (s : String) :
    (succsOf gl s).length ≤ maxOutDegree gl := by
  induction gl with
  | nil => simp [succsOf, dictLookup, maxOutDegree]
  | cons hd tl ih =>
    obtain ⟨k, l⟩ := hd
    by_cases h : k = s
    · simp only [succsOf, dictLookup, if_pos h, Option.getD_some, maxOutDegree,
        List.map_cons, List.foldr_cons]
      exact le_max_left _ _
    · simp only [succsOf, dictLookup, if_neg h, maxOutDegree, List.map_cons,
        List.foldr_cons]
      exact le_trans ih (le_max_right _ _)

theorem mem_succsOf_flatten (gl : List (String × List String)) (s a : String)
    (ha : a ∈ succsOf gl s) : a ∈ (gl.map Prod.snd).flatten := by
  induction gl with
  | nil => simp [succsOf, dictLookup] at ha
  | cons hd tl ih =>
    obtain ⟨k, l⟩ := hd
    by_cases h : k = s
    · simp only [succsOf, dictLookup, if_pos h, Option.getD_some] at ha
      simp only [List.map_cons, List.flatten_cons, List.mem_append]
      exact Or.inl ha
    · simp only [succsOf, dictLookup, if_neg h] at ha
      simp only [List.map_cons, List.flatten_cons, List.mem_append]
      exact Or.inr (ih ha)

theorem mem_succsOf_mem_graphStops (gl : List (String × List String))
    (start_stop s a : String) (ha : a ∈ succsOf gl s) :
    a ∈ graphStops gl start_stop := by
  unfold graphStops
  exact List.mem_cons_of_mem _ (List.mem_append.mpr
    (Or.inr (mem_succsOf_flatten gl s a ha)))

theorem unvisitedCount_append_le (u v : List String) (s : String) :
    unvisitedCount u (v ++ [s]) ≤ unvisitedCount u v := by
  induction u with
  | nil => exact le_refl _
  | cons x u ih =>
    unfold unvisitedCount at *
    rw [List.filter_cons, List.filter_cons]
    by_cases hx : x ∈ v
    · have d1 : decide (x ∉ v) = false := by simp [hx]
      have d2 : decide (x ∉ v ++ [s]) = false := by simp [hx]
      simp only [d1, d2, Bool.false_eq_true, if_false]
      exact ih
    · have d1 : decide (x ∉ v) = true := by simp [hx]
      by_cases hx2 : x ∈ v ++ [s]
      · have d2 : decide (x ∉ v ++ [s]) = false := by simp_all
        simp only [d1, d2, Bool.false_eq_true, if_false, if_true,
          List.length_cons]
        exact Nat.le_succ_of_le ih
      · have d2 : decide (x ∉ v ++ [s]) = true := by simp_all
        simp only [d1, d2, if_true, List.length_cons]
        exact Nat.succ_le_succ ih

theorem unvisitedCount_append_lt (u v : List String) (s : String)
    (hu : s ∈ u) (hv : s ∉ v) :
    unvisitedCount u (v ++ [s]) < unvisitedCount u v := by
  induction u with
  | nil => cases hu
  | cons x u ih =>
    unfold unvisitedCount
    rw [List.filter_cons, List.filter_cons]
    by_cases hxs : x = s
    · subst hxs
      have d1 : decide (x ∉ v) = true := by simp [hv]
      have d2 : decide (x ∉ v ++ [x]) = false := by simp
      simp only [d1, d2, Bool.false_eq_true, if_false, if_true,
        List.length_cons]
      exact Nat.lt_succ_of_le (unvisitedCount_append_le u v x)
    · have hu2 : s ∈ u := by
        rcases List.mem_cons.mp hu with h | h
        · exact absurd h.symm hxs
        · exact h
      by_cases hx : x ∈ v
      · have d1 : decide (x ∉ v) = false := by simp [hx]
        have d2 : decide (x ∉ v ++ [s]) = false := by simp [hx]
        simp only [d1, d2, Bool.false_eq_true, if_false]
        exact ih hu2
      · have d1 : decide (x ∉ v) = true := by simp [hx]
        have d2 : decide (x ∉ v ++ [s]) = true := by
          simp only [List.mem_append, List.mem_singleton, decide_eq_true_eq]
          rintro (h | h)
          · exact hx h
          · exact hxs h
        simp only [d1, d2, if_true, List.length_cons]
        exact Nat.succ_lt_succ (ih hu2)

theorem expandStep_queue_subset (gl : List (String × List String))
    (start_stop : String) :
    ∀ st : SearchState,
      (∀ a ∈ st.queue, a ∈ graphStops gl start_stop) →
      ∀ a ∈ (expandStep (succsOf gl) st).queue, a ∈ graphStops gl start_stop := by
  rintro ⟨q, m, vis⟩ hq a ha
  cases q with
  | nil => exact hq a ha
  | cons stop rest =>
    by_cases hv : stop ∈ vis
    · simp only [expandStep, if_pos hv] at ha
      exact hq a (List.mem_cons_of_mem _ ha)
    · simp only [expandStep, if_neg hv] at ha
      rcases List.mem_append.mp ha with h | h
      · exact hq a (List.mem_cons_of_mem _ h)
      · exact mem_succsOf_mem_graphStops gl start_stop stop a h

theorem expandStep_measure_lt (gl : List (String × List String))
    (start_stop : String) :
    ∀ st : SearchState, st.queue ≠ [] →
      (∀ a ∈ st.queue, a ∈ graphStops gl start_stop) →
      searchMeasure gl start_stop (expandStep (succsOf gl) st)
        < searchMeasure gl start_stop st := by
  rintro ⟨q, m, vis⟩ hne hq
  cases q with
  | nil => exact absurd rfl hne
  | cons stop rest =>
    by_cases hv : stop ∈ vis
    · simp only [expandStep, if_pos hv, searchMeasure, List.length_cons]
      exact Nat.add_lt_add_left (Nat.lt_succ_self _) _
    · have hstop : stop ∈ graphStops gl start_stop :=
        hq stop (List.mem_cons_self _ _)
      have h1 : unvisitedCount (graphStops gl start_stop) (vis ++ [stop]) + 1
          ≤ unvisitedCount (graphStops gl start_stop) vis :=
        unvisitedCount_append_lt (graphStops gl start_stop) vis stop hstop hv
      have h2 : (succsOf gl stop).length ≤ maxOutDegree gl :=
        succsOf_length_le gl stop
      simp only [expandStep, if_neg hv, searchMeasure, List.length_cons,
        List.length_append]
      have h3 : (unvisitedCount (graphStops gl start_stop) (vis ++ [stop]) + 1)
            * (maxOutDegree gl + 1)
          ≤ unvisitedCount (graphStops gl start_stop) vis
            * (maxOutDegree gl + 1) :=
        Nat.mul_le_mul_right _ h1
      rw [Nat.add_mul, one_mul] at h3
      set A := unvisitedCount (graphStops gl start_stop) (vis ++ [stop])
        * (maxOutDegree gl + 1) with hA
      set B := unvisitedCount (graphStops gl start_stop) vis
        * (maxOutDegree gl + 1) with hB
      omega

theorem expandLoop_reaches_empty (gl : List (String × List String))
    (start_stop : String) :
    ∀ n : Nat, ∀ st : SearchState, searchMeasure gl start_stop st ≤ n →
      (∀ a ∈ st.queue, a ∈ graphStops gl start_stop) →
      ∃ fuel st2, expandLoop (succsOf gl) fuel st = some st2 := by
  intro n
  induction n with
  | zero =>
    intro st hm hq
    by_cases hqe : st.queue = []
    · exact ⟨0, st, by simp [expandLoop, hqe]⟩
    · exfalso
      have h1 : 0 < st.queue.length := List.length_pos.mpr hqe
      have h2 : st.queue.length ≤ searchMeasure gl start_stop st :=
        Nat.le_add_left _ _
      omega
  | succ n ih =>
    intro st hm hq
    by_cases hqe : st.queue = []
    · exact ⟨0, st, by simp [expandLoop, hqe]⟩
    · have hlt := expandStep_measure_lt gl start_stop st hqe hq
      have hq2 := expandStep_queue_subset gl start_stop st hq
      obtain ⟨fuel, st2, hst2⟩ :=
        ih (expandStep (succsOf gl) st) (by omega) hq2
      exact ⟨fuel + 1, st2, by simp [expandLoop, hqe, hst2]⟩

theorem expandStep_visited_nodup (g : String → List String) :
    ∀ st : SearchState, st.visited.Nodup → (expandStep g st).visited.Nodup := by
  rintro ⟨q, m, vis⟩ h
  cases q with
  | nil => exact h
  | cons stop rest =>
    by_cases hv : stop ∈ vis
    · simpa [expandStep, hv] using h
    · simp only [expandStep, if_neg hv]
      simp [List.nodup_append, h, hv]

theorem stepN_visited_nodup (g : String → List String) :
    ∀ (n : Nat) (st : SearchState),
      st.visited.Nodup → (stepN g n st).visited.Nodup := by
  intro n
  induction n with
  | zero => intro st h; exact h
  | succ n ih => intro st h; exact ih _ (expandStep_visited_nodup g st h)

/-- C6: for every finite successor graph (an adjacency list, each stop with
a finite successor list) and every start stop, the expansion phase of the
path finder terminates: the visited list never records a stop twice (the
visited guard makes each stop processed at most once), and — although
successors are enqueued unconditionally and may be enqueued repeatedly —
the FIFO queue eventually empties: with enough fuel the loop exits with a
final state. -/
theorem expansion_terminates :
    ∀ (gl : List (String × List String)) (start_stop : String),
      (∀ n, ((stepN (succsOf gl) n (initState start_stop)).visited).Nodup)
      ∧ ∃ fuel st,
          expandLoop (succsOf gl) fuel (initState start_stop) = some st := by
  intro gl start_stop
  constructor
  · intro n
    exact stepN_visited_nodup (succsOf gl) n (initState start_stop)
      List.nodup_nil
  · apply expandLoop_reaches_empty gl start_stop
      (searchMeasure gl start_stop (initState start_stop))
      (initState start_stop) (le_refl _)
    intro a ha
    have haa : a = start_stop := by simpa [initState] using ha
    subst haa
    exact List.mem_cons_self _ _
